import Mathlib

/-!
# Verification of the exoplanet catalog client

Shallow embedding of the query-state-to-request mapping and response-shape
reconciliation layer of the exoplanet catalog browser.  Two independent
frontend implementations coexist in the repository:

* Builder A (paged contract): `src/unnamed` parts — `buildUrl`/`get` in the
  API client, `usePlanetFilters`/`usePlanetList` hooks, `PlanetsTable`.
* Builder B (offset contract): `src/frontend/src/types.ts` —
  `numericOrUndefined`, `buildParams`, `fetchAll`, `goToPage`,
  `formatNumber`, and the dashboard component.

JavaScript numbers that the code manipulates exactly (integers, decimal
literals) are modelled as `Int`/`ℚ`; query-parameter collections are
modelled as association lists keyed by parameter name (the code builds them
with `URLSearchParams.set` / `url.searchParams.set` over distinct keys).
-/

/-- A JavaScript scalar that can appear as a query-parameter value in the
Builder A client: a string, a number, or `undefined`. -/
inductive JsVal : Type where
  | str (s : String)
  | num (n : Int)
  | undef
deriving DecidableEq, Repr

/-- JavaScript `String(value)` on the scalars above. -/
def jsString : JsVal → String
  | .str s => s
  | .num n => toString n
  | .undef => "undefined"

/-- The parameter-retention test of `buildUrl`
(`value !== undefined && value !== ''`). -/
def keepParam (v : JsVal) : Bool :=
  !(v == JsVal.undef) && !(v == JsVal.str "")

/-- The query parameters `buildUrl` actually writes into the URL: entries
whose value is neither `undefined` nor the empty string, each rendered with
`String(value)` (from `src/unnamed/part_000`, `buildUrl`). -/
def includedParams (params : List (String × JsVal)) : List (String × String) :=
  (params.filter (fun kv => keepParam kv.2)).map (fun kv => (kv.1, jsString kv.2))

/-- Builder A filter state (`PlanetFilterState` in `usePlanetFilters`).
`orderDir` is only ever `"asc"`/`"desc"` in the UI but the update operation
is string-typed, so it is carried as a string. -/
structure PlanetFilterState : Type where
  search : String
  method : String
  minYear : String
  maxYear : String
  orderBy : String
  orderDir : String
deriving DecidableEq, Repr

/-- The `defaultState` of `usePlanetFilters`. -/
def defaultFilterState : PlanetFilterState :=
  { search := "", method := "", minYear := "", maxYear := ""
  , orderBy := "discovery_year", orderDir := "desc" }

/-- Builder A `mapFiltersToParams` (from `usePlanetList`): the parameter
mapping handed to `get`, with `PAGE_SIZE = 20`. -/
def mapFiltersToParams (filters : PlanetFilterState) (page : Int) :
    List (String × JsVal) :=
  [ ("limit", .num 20)
  , ("page", .num page)
  , ("name", .str filters.search)
  , ("method", .str filters.method)
  , ("min_year", .str filters.minYear)
  , ("max_year", .str filters.maxYear)
  , ("order_by", .str filters.orderBy)
  , ("order_dir", .str filters.orderDir) ]

/-- A field of `PlanetFilterState`, as addressed by `updateFilter`. -/
inductive FilterKey : Type where
  | search | method | minYear | maxYear | orderBy | orderDir
deriving DecidableEq, Repr

/-- The hook operation `updateFilter`: functional update of one field
(`setFilters((prev) => ({ ...prev, [key]: value }))`). -/
def setField (f : PlanetFilterState) : FilterKey → String → PlanetFilterState
  | .search, v => { f with search := v }
  | .method, v => { f with method := v }
  | .minYear, v => { f with minYear := v }
  | .maxYear, v => { f with maxYear := v }
  | .orderBy, v => { f with orderBy := v }
  | .orderDir, v => { f with orderDir := v }

/-- The state held by Builder A's `usePlanetList` hook: the filter object it
receives and its own `page` state. -/
structure ListHookState : Type where
  filters : PlanetFilterState
  page : Int
deriving DecidableEq, Repr

/-- A filter change observed by `usePlanetList`: `updateFilter` replaces the
filter object, so the `useEffect` with dependency `[filters]` runs and
executes `setPage(1)` before the query for the new filters settles. -/
def changeFilter (s : ListHookState) (k : FilterKey) (v : String) :
    ListHookState :=
  { filters := setField s.filters k v, page := 1 }

/-- The query parameters of the request `usePlanetList` issues for its
current state (`get('/planets', mapFiltersToParams(filters, page))` routed
through `buildUrl`). -/
def currentRequest (s : ListHookState) : List (String × String) :=
  includedParams (mapFiltersToParams s.filters s.page)

/-- An HTTP response as seen by the fetch helper: a status code and an
already-parsed JSON body of arbitrary shape `α`. -/
structure HttpResponse (α : Type) : Type where
  status : Nat
  body : α

/-- Outcome of `get`: either the parsed body or a raised failure carrying
the HTTP status code (`Request failed with status ${response.status}`). -/
inductive GetResult (α : Type) : Type where
  | success (body : α)
  | failure (status : Nat)
deriving DecidableEq, Repr

/-- JavaScript `response.ok`: status in the inclusive range 200–299. -/
def responseOk (status : Nat) : Bool :=
  decide (200 ≤ status ∧ status ≤ 299)

/-- The fetch helper `get` (from `src/unnamed/part_000`; named `getJson`
here because plain `get` is ambiguous in Lean): throws on a non-2xx
status, otherwise returns the parsed JSON body unchanged — no runtime
schema validation. -/
def getJson {α : Type} (resp : HttpResponse α) : GetResult α :=
  if responseOk resp.status then .success resp.body else .failure resp.status

/-- Builder B listing response (`PlanetListResponse` in `types.ts`, offset
contract). Only the pagination fields matter here. -/
structure PlanetListResponseB : Type where
  limit : Int
  offset : Int
  total : Int
deriving DecidableEq, Repr

/-- Builder B `totalPages`: `planets ? Math.ceil(planets.total / limit) : 0`
with the component's `limit` state. -/
def totalPagesB (planets : Option PlanetListResponseB) (limit : Int) : Int :=
  match planets with
  | none => 0
  | some p => ⌈(p.total : ℚ) / (limit : ℚ)⌉

/-- Builder B `currentPage`: `Math.floor(offset / limit) + 1`. -/
def currentPageB (offset limit : Int) : Int :=
  ⌊(offset : ℚ) / (limit : ℚ)⌋ + 1

/-- Builder B `canGoPrev = offset > 0`. -/
def canGoPrevB (offset : Int) : Bool := decide (0 < offset)

/-- Builder B `canGoNext = planets ? offset + limit < planets.total : false`. -/
def canGoNextB (offset limit : Int) (planets : Option PlanetListResponseB) :
    Bool :=
  match planets with
  | none => false
  | some p => decide (offset + limit < p.total)

/-- Builder A listing response (`PlanetListResponse` in the Builder A
types): page-based pagination fields. -/
structure PlanetListResponseA : Type where
  page : Int
  pages : Int
  total : Int
deriving DecidableEq, Repr

/-- Builder A `PlanetsTable` reads `page = response?.page ?? 1`. -/
def pageA (response : Option PlanetListResponseA) : Int :=
  match response with
  | none => 1
  | some r => r.page

/-- Builder A `PlanetsTable` reads `pages = response?.pages ?? 1`. -/
def pagesA (response : Option PlanetListResponseA) : Int :=
  match response with
  | none => 1
  | some r => r.pages

/-- Builder A Previous button: `disabled={page <= 1 || loading}`. -/
def prevDisabledA (response : Option PlanetListResponseA) (loading : Bool) :
    Bool :=
  decide (pageA response ≤ 1) || loading

/-- Builder A Next button: `disabled={page >= pages || loading}`. -/
def nextDisabledA (response : Option PlanetListResponseA) (loading : Bool) :
    Bool :=
  decide (pagesA response ≤ pageA response) || loading

/-- Builder B Previous button: `disabled={!canGoPrev}`. -/
def prevDisabledB (offset : Int) : Bool := !canGoPrevB offset

/-- Builder B Next button: `disabled={!canGoNext}`. -/
def nextDisabledB (offset limit : Int)
    (planets : Option PlanetListResponseB) : Bool :=
  !canGoNextB offset limit planets

/-- Numeric value of a digit character. -/
def digitVal (c : Char) : Nat := c.toNat - '0'.toNat

/-- Value of a digit string read in base 10. -/
def natOfDigits (l : List Char) : Nat :=
  l.foldl (fun a c => a * 10 + digitVal c) 0

/-- Hexadecimal digit value (for `0x` literals). -/
def hexVal (c : Char) : Nat :=
  if c.isDigit then digitVal c
  else if 'a' ≤ c ∧ c ≤ 'f' then c.toNat - 'a'.toNat + 10
  else c.toNat - 'A'.toNat + 10

/-- Is `c` a digit of base `b` (`b` ∈ {2, 8, 16})? -/
def isRadixDigit (b : Nat) (c : Char) : Bool :=
  if b = 16 then c.isDigit || ('a' ≤ c && c ≤ 'f') || ('A' ≤ c && c ≤ 'F')
  else c.isDigit && digitVal c < b

/-- Value of a digit string read in base `b`. -/
def natOfRadixDigits (b : Nat) (l : List Char) : Nat :=
  l.foldl (fun a c => a * b + hexVal c) 0

/-- JavaScript `String.prototype.trim` modelled structurally over the
character list (drops leading and trailing whitespace). -/
def jsTrimList (s : String) : List Char :=
  ((s.data.dropWhile Char.isWhitespace).reverse.dropWhile
    Char.isWhitespace).reverse

/-- A finite JavaScript number, represented exactly as a decimal
`mantissa / 10 ^ scale`.  Every string `Number()` accepts denotes such a
value; float overflow to `±Infinity` and double rounding are not
modelled (parsing is exact). -/
structure JsNumber : Type where
  mantissa : Int
  scale : Nat
deriving DecidableEq, Repr

/-- Canonical form: while the fractional scale is positive and the mantissa
ends in a zero digit, drop both.  Ensures the decimal rendering below has
no trailing fractional zeros, matching how `String(number)` renders the
value rather than the literal it was parsed from. -/
def canonJsNumber : Int → Nat → JsNumber
  | m, 0 => ⟨m, 0⟩
  | m, s + 1 => if m % 10 = 0 then canonJsNumber (m / 10) s else ⟨m, s + 1⟩

/-- The rational value of a `JsNumber`. -/
def JsNumber.val (d : JsNumber) : ℚ := mkRat d.mantissa (10 ^ d.scale)

/-- Build the value `mant × 10 ^ (e - fracLen)` from the digits of a
decimal literal (integer-plus-fraction digits `mant`, `fracLen` fraction
digits, exponent `e`), in canonical decimal form. -/
def decOfParts (mant : Nat) (fracLen : Nat) (e : Int) : JsNumber :=
  let net : Int := e - fracLen
  if 0 ≤ net then ⟨(mant : Int) * 10 ^ net.toNat, 0⟩
  else canonJsNumber (mant : Int) (-net).toNat

/-- Negation of a parsed number (for a leading `-` sign). -/
def JsNumber.neg (d : JsNumber) : JsNumber := ⟨-d.mantissa, d.scale⟩

/-- Parse the digits of a `0x`/`0o`/`0b` literal (everything after the
radix prefix); `none` models `NaN`. -/
def parseRadix (b : Nat) (l : List Char) : Option JsNumber :=
  if l ≠ [] ∧ l.all (isRadixDigit b) then
    some ⟨(natOfRadixDigits b l : Int), 0⟩
  else none

/-- Parse an exponent suffix (`e`/`E`, optional sign, digits); the empty
suffix parses as exponent 0; anything else models `NaN`. -/
def parseExpPart (l : List Char) : Option Int :=
  match l with
  | [] => some 0
  | c :: rest =>
    if c = 'e' ∨ c = 'E' then
      let (sign, rest2) : Int × List Char :=
        match rest with
        | '+' :: r => (1, r)
        | '-' :: r => (-1, r)
        | r => (1, r)
      if rest2 ≠ [] ∧ rest2.all Char.isDigit then
        some (sign * (natOfDigits rest2 : Int))
      else none
    else none

/-- Parse an unsigned decimal literal `digits+('.'digits*)? exp?` or
`'.'digits+ exp?`; `none` models `NaN`. -/
def parseDecimalLiteral (l : List Char) : Option JsNumber :=
  let (intDigits, r1) := l.span Char.isDigit
  let core : Option (List Char × List Char × List Char) :=
    match r1 with
    | '.' :: r2 =>
      let (fracDigits, r3) := r2.span Char.isDigit
      if intDigits = [] ∧ fracDigits = [] then none
      else some (intDigits, fracDigits, r3)
    | _ => if intDigits = [] then none else some (intDigits, [], r1)
  match core with
  | none => none
  | some (ip, fp, rest) =>
    match parseExpPart rest with
    | none => none
    | some e => some (decOfParts (natOfDigits (ip ++ fp)) fp.length e)

/-- Parse a signed decimal literal; `±Infinity` is a valid JavaScript
number but not finite, so it is mapped to `none` here together with `NaN`
(only finiteness matters downstream, see `numericOrUndefined`). -/
def parseSignedDecimal (l : List Char) : Option JsNumber :=
  let (negative, l2) : Bool × List Char :=
    match l with
    | '+' :: r => (false, r)
    | '-' :: r => (true, r)
    | r => (false, r)
  if l2 = "Infinity".data then none
  else (parseDecimalLiteral l2).map (fun d => if negative then d.neg else d)

/-- JavaScript `Number(string)` restricted to finite results: whitespace is
trimmed, the empty string is 0, `0x`/`0o`/`0b` literals are unsigned
integer literals, everything else is a signed decimal literal.  `none`
stands for `NaN` and for the non-finite `±Infinity`. -/
def jsStringToNumber (s : String) : Option JsNumber :=
  let t := jsTrimList s
  if t = [] then some ⟨0, 0⟩
  else
    match t with
    | '0' :: c :: rest =>
      if c = 'x' ∨ c = 'X' then parseRadix 16 rest
      else if c = 'o' ∨ c = 'O' then parseRadix 8 rest
      else if c = 'b' ∨ c = 'B' then parseRadix 2 rest
      else parseSignedDecimal t
    | _ => parseSignedDecimal t

/-- Builder B `numericOrUndefined` (from `types.ts`): the empty/whitespace
string is `undefined`; otherwise `Number(value)` is kept only when
`Number.isFinite` holds (`jsStringToNumber` already yields `none` exactly
for the non-finite results `NaN` and `±Infinity`). -/
def numericOrUndefined (value : String) : Option JsNumber :=
  if jsTrimList value = [] then none
  else jsStringToNumber value

/-- JavaScript `String(number)` on a canonical finite decimal: sign,
integer digits, and (when the scale is positive) a dot and the fraction
digits.  Exponent notation, used by JS only beyond 1e21 / below 1e-7, is
not modelled. -/
def renderDecimal (m : Int) (s : Nat) : String :=
  let n := m.natAbs
  let p := 10 ^ s
  let frs := toString (n % p)
  let pad : String := ⟨List.replicate (s - frs.length) '0'⟩
  (if m < 0 then "-" else "") ++ toString (n / p) ++ "." ++ pad ++ frs

/-- See `renderDecimal` for the positive-scale case. -/
def jsNumberToString (d : JsNumber) : String :=
  if d.scale = 0 then toString d.mantissa
  else renderDecimal d.mantissa d.scale

/-- Builder B sort column (`Filters["sort_by"]` literal union). -/
inductive SortBy : Type where
  | id | name | disc_year | disc_method | orbperd | rade | masse
  | st_teff | st_rad | st_mass | created_at
deriving DecidableEq, Repr

/-- Wire string of a sort column. -/
def sortByStr : SortBy → String
  | .id => "id"
  | .name => "name"
  | .disc_year => "disc_year"
  | .disc_method => "disc_method"
  | .orbperd => "orbperd"
  | .rade => "rade"
  | .masse => "masse"
  | .st_teff => "st_teff"
  | .st_rad => "st_rad"
  | .st_mass => "st_mass"
  | .created_at => "created_at"

/-- Builder B sort direction (`Filters["sort_order"]`). -/
inductive SortOrder : Type where
  | asc | desc
deriving DecidableEq, Repr

/-- Wire string of a sort direction. -/
def sortOrderStr : SortOrder → String
  | .asc => "asc"
  | .desc => "desc"

/-- Builder B `Filters` (from `types.ts`): raw string inputs for the name,
method and fourteen numeric bounds, the archived flag, and sorting. -/
structure Filters : Type where
  name : String
  disc_method : String
  min_year : String
  max_year : String
  min_orbperd : String
  max_orbperd : String
  min_rade : String
  max_rade : String
  min_masse : String
  max_masse : String
  min_st_teff : String
  max_st_teff : String
  min_st_rad : String
  max_st_rad : String
  min_st_mass : String
  max_st_mass : String
  include_deleted : Bool
  sort_by : SortBy
  sort_order : SortOrder
deriving DecidableEq, Repr

/-- The `DEFAULT_FILTERS` constant of Builder B. -/
def DEFAULT_FILTERS : Filters :=
  { name := "", disc_method := "", min_year := "", max_year := ""
  , min_orbperd := "", max_orbperd := "", min_rade := "", max_rade := ""
  , min_masse := "", max_masse := "", min_st_teff := "", max_st_teff := ""
  , min_st_rad := "", max_st_rad := "", min_st_mass := "", max_st_mass := ""
  , include_deleted := false, sort_by := .id, sort_order := .desc }

/-- JavaScript trim returning a string (for `source.name.trim()`). -/
def jsTrim (s : String) : String := ⟨jsTrimList s⟩

/-- The static table of Builder B's fourteen numeric filters: wire
parameter name paired with the field it is read from (the `numericFilters`
array in `buildParams`; there the internal key and the wire name coincide). -/
def numericFilterEntries : List (String × (Filters → String)) :=
  [ ("min_year", Filters.min_year)
  , ("max_year", Filters.max_year)
  , ("min_orbperd", Filters.min_orbperd)
  , ("max_orbperd", Filters.max_orbperd)
  , ("min_rade", Filters.min_rade)
  , ("max_rade", Filters.max_rade)
  , ("min_masse", Filters.min_masse)
  , ("max_masse", Filters.max_masse)
  , ("min_st_teff", Filters.min_st_teff)
  , ("max_st_teff", Filters.max_st_teff)
  , ("min_st_rad", Filters.min_st_rad)
  , ("max_st_rad", Filters.max_st_rad)
  , ("min_st_mass", Filters.min_st_mass)
  , ("max_st_mass", Filters.max_st_mass) ]

/-- The fixed (non-numeric) parameters `buildParams` sets before the
numeric loop: limit, offset, optional trimmed name and method, optional
archived flag, and the sort pair. -/
def fixedParams (limit : Int) (source : Filters) (useOffset : Int) :
    List (String × String) :=
  [("limit", toString limit), ("offset", toString useOffset)]
  ++ (if jsTrim source.name ≠ "" then [("name", jsTrim source.name)] else [])
  ++ (if jsTrim source.disc_method ≠ "" then
        [("disc_method", jsTrim source.disc_method)] else [])
  ++ (if source.include_deleted then [("include_deleted", "true")] else [])
  ++ [("sort_by", sortByStr source.sort_by),
      ("sort_order", sortOrderStr source.sort_order)]

/-- The numeric parameters `buildParams` emits: for each table entry, the
field is parsed with `numericOrUndefined`; a parse failure emits nothing,
a success emits `String(value)`. -/
def numericParams (source : Filters) : List (String × String) :=
  numericFilterEntries.filterMap (fun kg =>
    (numericOrUndefined (kg.2 source)).map (fun d => (kg.1, jsNumberToString d)))

/-- Builder B `buildParams` (from `types.ts`), as the association list the
`URLSearchParams` ends up holding (all keys written are distinct). -/
def buildParams (limit : Int) (source : Filters) (useOffset : Int) :
    List (String × String) :=
  fixedParams limit source useOffset ++ numericParams source

/-- Builder B `MethodCount` rows. -/
structure MethodCount : Type where
  disc_method : String
  count : Int
deriving DecidableEq, Repr

/-- Builder B `PlanetStats` (only its presence matters for the joint-fetch
state, so the aggregates are left abstract as an opaque payload). -/
structure PlanetStats : Type where
  count : Int
deriving DecidableEq, Repr

/-- How one of the three fetch promises settles: fulfilled with a typed
body, rejected with a thrown `Error` message (the non-2xx branches in
`fetchAll`, or a network failure), or rejected with an `AbortError`
(the `AbortController` of the effect cleanup fired). -/
inductive Outcome (α : Type) : Type where
  | success (value : α)
  | failure (message : String)
  | aborted
deriving DecidableEq, Repr

/-- The rejection a settled promise contributes, if any. -/
def Outcome.rejection {α : Type} : Outcome α → Option (Option String)
  | .success _ => none
  | .failure m => some (some m)
  | .aborted => some none

/-- JavaScript `Promise.all` over the three fetches: fulfils with the triple when all
three fulfil, otherwise rejects with the rejection of the earliest-rejected
promise.  Rejection order is abstracted as list-position order, which is
exact whenever at most one input rejects and represents one admissible
temporal order otherwise (`some msg` = an `Error`, `none` = `AbortError`). -/
def promiseAll3 {α β γ : Type} (a : Outcome α) (b : Outcome β)
    (c : Outcome γ) : Except (Option String) (α × β × γ) :=
  match a.rejection with
  | some r => .error r
  | none =>
    match b.rejection with
    | some r => .error r
    | none =>
      match c.rejection with
      | some r => .error r
      | none =>
        match a, b, c with
        | .success x, .success y, .success z => .ok (x, y, z)
        | _, _, _ => .error none

/-- Builder B `FetchState`. -/
structure FetchState : Type where
  planets : Option PlanetListResponseB
  methodCounts : List MethodCount
  stats : Option PlanetStats
  loading : Bool
  error : Option String
deriving DecidableEq, Repr

/-- Builder B `fetchAll` (from `types.ts`), as a function from the previous
state and the way the three concurrent fetches settle to the state left
behind: it first writes `loading: true, error: null`, then on joint success
commits all three results, on a thrown `Error` stores the message and
discards every result, and on an `AbortError` returns without a further
write. -/
def fetchAll (prev : FetchState) (planetsOut : Outcome PlanetListResponseB)
    (methodCountsOut : Outcome (List MethodCount))
    (statsOut : Outcome PlanetStats) : FetchState :=
  let started : FetchState := { prev with loading := true, error := none }
  match promiseAll3 planetsOut methodCountsOut statsOut with
  | .ok (p, m, s) =>
    { planets := some p, methodCounts := m, stats := some s
    , loading := false, error := none }
  | .error (some msg) =>
    { planets := none, methodCounts := [], stats := none
    , loading := false, error := some msg }
  | .error none => started

/-- The thrown message for a non-2xx listing response
(`Gezegenler getirilemedi: ${res.status}`). -/
def planetsFailureMsg (status : Nat) : String :=
  "Gezegenler getirilemedi: " ++ toString status

/-- The thrown message for a non-2xx method-counts response
(`Yöntem istatistikleri getirilemedi: ${res.status}`). -/
def methodCountsFailureMsg (status : Nat) : String :=
  "Yöntem istatistikleri getirilemedi: " ++ toString status

/-- Builder B pagination state: the `limit` and `offset` `useState` pair. -/
structure PagingState : Type where
  limit : Int
  offset : Int
deriving DecidableEq, Repr

/-- Initial pagination state: `useState(25)` and `useState(0)`. -/
def pagingInit : PagingState := ⟨25, 0⟩

/-- The operations of the dashboard that touch `limit`/`offset`.
`goToPage` covers the Previous/Next buttons (`goToPage(currentPage ± 1)`)
and the page input; `setLimit` is the page-size input handler, whose
argument is the parsed input (`none` for `NaN`; `0` for the empty string,
since JavaScript `Number('') = 0`). -/
inductive PagingEvent : Type where
  | goToPage (page : Int)
  | setLimit (raw : Option Int)
  | submit
  | reset
  | filterChange
deriving DecidableEq, Repr

/-- JavaScript `Number(event.target.value) || 1`: `NaN` and `0` fall back to 1. -/
def jsOrOne : Option Int → Int
  | none => 1
  | some 0 => 1
  | some n => n

/-- One dashboard operation on the pagination state:
`goToPage` clamps the page to at least 1 and stores `(page-1)*limit`;
the page-size handler clamps the input into `[1, 200]` and resets the
offset; submit and reset return to offset 0 (reset also restores
`limit = 25`); a filter edit leaves pagination untouched. -/
def pagingStep (s : PagingState) : PagingEvent → PagingState
  | .goToPage p => { s with offset := (max 1 p - 1) * s.limit }
  | .setLimit raw => { limit := min 200 (max 1 (jsOrOne raw)), offset := 0 }
  | .submit => { s with offset := 0 }
  | .reset => { limit := 25, offset := 0 }
  | .filterChange => s

/-- The pagination states the dashboard can actually be in: the initial
state and everything reachable from it through the operations above. -/
inductive ReachablePaging : PagingState → Prop
  | init : ReachablePaging pagingInit
  | step {s : PagingState} (e : PagingEvent) :
      ReachablePaging s → ReachablePaging (pagingStep s e)

/-- Round `m / q` (`q > 0`) to the nearest integer, ties away from zero. -/
def roundHalfAway (m : Int) (q : Nat) : Int :=
  let r := (m.natAbs + q / 2) / q
  if m < 0 then -(r : Int) else (r : Int)

/-- Reduce a decimal to at most `t` fraction digits, rounding ties away
from zero and dropping trailing fractional zeros. -/
def roundToScale (d : JsNumber) (t : Nat) : JsNumber :=
  if d.scale ≤ t then d
  else canonJsNumber (roundHalfAway d.mantissa (10 ^ (d.scale - t))) t

/-- JavaScript `value.toLocaleString(undefined, ...)` with a
`maximumFractionDigits` option: at most
that many fraction digits, trailing zeros dropped.  The host locale's
digit-grouping separators are not modelled. -/
def localeString (d : JsNumber) (maxFrac : Nat) : String :=
  jsNumberToString (roundToScale d maxFrac)

/-- Builder B `formatNumber` (from `types.ts`): null and undefined render
as the placeholder `"-"`, anything else through `toLocaleString`. -/
def formatNumber (value : Option JsNumber) (fractionDigits : Nat := 2) :
    String :=
  match value with
  | none => "-"
  | some d => localeString d fractionDigits

/-- JavaScript `number.toFixed(digits)`: exactly `digits` fraction digits,
ties rounded away from zero. -/
def toFixed (digits : Nat) (d : JsNumber) : String :=
  let scaled : Int :=
    if d.scale ≤ digits then d.mantissa * 10 ^ (digits - d.scale)
    else roundHalfAway d.mantissa (10 ^ (d.scale - digits))
  if digits = 0 then toString scaled else renderDecimal scaled digits

/-- A Builder A record (`PlanetSummary`): the measurement fields are
nullable in the wire contract. -/
structure PlanetA : Type where
  id : Int
  name : String
  discovery_method : String
  discovery_year : Option JsNumber
  orbital_period : Option JsNumber
  radius : Option JsNumber
  mass : Option JsNumber
deriving DecidableEq, Repr

/-- The six cells of one Builder A table row (`PlanetsTable`):
`{planet.discovery_year ?? '—'}` and
`{planet.orbital_period?.toFixed(2) ?? '—'}` and likewise for radius and
mass; a JSX number child renders as `String(number)`. -/
def renderRowA (p : PlanetA) : List String :=
  [ p.name
  , p.discovery_method
  , match p.discovery_year with
    | none => "—"
    | some y => jsNumberToString y
  , match p.orbital_period with
    | none => "—"
    | some v => toFixed 2 v
  , match p.radius with
    | none => "—"
    | some v => toFixed 2 v
  , match p.mass with
    | none => "—"
    | some v => toFixed 2 v ]

/-- A Builder B record (`Planet` in `types.ts`).  The TypeScript type
declares the numeric fields non-nullable, but nothing validates the
response, so the runtime value of each numeric field may be null; that
possibility is what `formatNumber` guards. -/
structure PlanetB : Type where
  id : Int
  name : String
  disc_method : String
  disc_year : Option JsNumber
  orbperd : Option JsNumber
  rade : Option JsNumber
  masse : Option JsNumber
  st_teff : Option JsNumber
  st_rad : Option JsNumber
  st_mass : Option JsNumber
deriving DecidableEq, Repr

/-- The ten cells of one Builder B table row: id, name and method raw,
`{planet.disc_year}` raw (React renders a null/undefined JSX child as
nothing, i.e. empty text), and the six remaining measurements through
`formatNumber`. -/
def renderRowB (p : PlanetB) : List String :=
  [ toString p.id
  , p.name
  , p.disc_method
  , match p.disc_year with
    | none => ""
    | some y => jsNumberToString y
  , formatNumber p.orbperd
  , formatNumber p.rade
  , formatNumber p.masse
  , formatNumber p.st_teff
  , formatNumber p.st_rad
  , formatNumber p.st_mass ]

/-- A concrete Builder B filter state exercising one parseable and one
unparseable numeric bound. -/
def exampleFiltersB : Filters :=
  { DEFAULT_FILTERS with min_rade := "1.5", max_rade := "oops" }

/-! ## Helper lemmas -/

lemma floor_intCast_div_intCast (t l : Int) (hl : 0 < l) :
    ⌊(t : ℚ) / (l : ℚ)⌋ = t / l := by
  have hcast : ((l.toNat : ℕ) : ℚ) = (l : ℚ) := by
    exact_mod_cast congrArg (Int.cast : Int → ℚ) (Int.toNat_of_nonneg hl.le)
  rw [← hcast, Rat.floor_intCast_div_natCast, Int.toNat_of_nonneg hl.le]

lemma ceil_intCast_div_intCast (t l : Int) (hl : 0 < l) :
    ⌈(t : ℚ) / (l : ℚ)⌉ = (t + l - 1) / l := by
  have hlq : (0 : ℚ) < (l : ℚ) := by exact_mod_cast hl
  have h1 := Int.ediv_add_emod (t + l - 1) l
  have h2 := Int.emod_nonneg (t + l - 1) (ne_of_gt hl)
  have h3 := Int.emod_lt_of_pos (t + l - 1) hl
  have hle : t ≤ ((t + l - 1) / l) * l := by linarith
  have hlt : (((t + l - 1) / l) - 1) * l < t := by linarith
  rw [Int.ceil_eq_iff]
  constructor
  · rw [lt_div_iff₀ hlq]
    exact_mod_cast hlt
  · rw [div_le_iff₀ hlq]
    exact_mod_cast hle

lemma lookup_eq_none_of_not_mem_keys {β : Type} {l : List (String × β)}
    {k : String} (h : k ∉ l.map Prod.fst) : List.lookup k l = none := by
  induction l with
  | nil => rfl
  | cons a l ih =>
    simp only [List.map_cons, List.mem_cons, not_or] at h
    cases a with
    | mk k1 v =>
      have hne : (k == k1) = false := beq_eq_false_iff_ne.mpr h.1
      simp only [List.lookup, hne]
      exact ih h.2

lemma lookup_append_left_none {β : Type} {l1 l2 : List (String × β)}
    {k : String} (h : k ∉ l1.map Prod.fst) :
    List.lookup k (l1 ++ l2) = List.lookup k l2 := by
  induction l1 with
  | nil => rfl
  | cons a l ih =>
    simp only [List.map_cons, List.mem_cons, not_or] at h
    cases a with
    | mk k1 v =>
      have hne : (k == k1) = false := beq_eq_false_iff_ne.mpr h.1
      simp only [List.cons_append, List.lookup, hne]
      exact ih h.2

lemma keys_subset_of_filterMap_entries (f : Filters)
    (entries : List (String × (Filters → String))) {k : String}
    (hk : k ∈ (entries.filterMap (fun kg =>
      (numericOrUndefined (kg.2 f)).map
        (fun d => (kg.1, jsNumberToString d)))).map Prod.fst) :
    k ∈ entries.map Prod.fst := by
  rw [List.mem_map] at hk
  obtain ⟨⟨k1, v⟩, hmem, hkeq⟩ := hk
  rw [List.mem_filterMap] at hmem
  obtain ⟨kg, hmem2, hg⟩ := hmem
  cases hcase : numericOrUndefined (kg.2 f) with
  | none => rw [hcase] at hg; cases hg
  | some d =>
    rw [hcase, Option.map_some'] at hg
    have h1 : kg.1 = k1 := congrArg Prod.fst (Option.some.inj hg)
    have h2 : kg.1 ∈ entries.map Prod.fst := List.mem_map_of_mem Prod.fst hmem2
    rw [h1] at h2
    exact hkeq ▸ h2

lemma lookup_numericParams_aux (f : Filters)
    (entries : List (String × (Filters → String))) (key : String)
    (getter : Filters → String) (hnd : (entries.map Prod.fst).Nodup)
    (hmem : (key, getter) ∈ entries) :
    List.lookup key (entries.filterMap (fun kg =>
      (numericOrUndefined (kg.2 f)).map
        (fun d => (kg.1, jsNumberToString d)))) =
      (numericOrUndefined (getter f)).map jsNumberToString := by
  induction entries with
  | nil => cases hmem
  | cons a l ih =>
    rw [List.map_cons, List.nodup_cons] at hnd
    obtain ⟨hk, hnd2⟩ := hnd
    rw [List.filterMap_cons]
    rcases List.mem_cons.mp hmem with heq | hmem2
    · subst heq
      cases hcase : numericOrUndefined (getter f) with
      | none =>
        simp only [hcase, Option.map_none']
        exact lookup_eq_none_of_not_mem_keys
          (fun hc => hk (keys_subset_of_filterMap_entries f l hc))
      | some d =>
        simp only [hcase, Option.map_some']
        simp [List.lookup]
    · have hkey : key ∈ l.map Prod.fst := List.mem_map_of_mem Prod.fst hmem2
      have hne : (key == a.1) = false :=
        beq_eq_false_iff_ne.mpr (fun h => hk (h ▸ hkey))
      cases hcase : numericOrUndefined (a.2 f) with
      | none =>
        simp only [hcase, Option.map_none']
        exact ih hnd2 hmem2
      | some d =>
        simp only [hcase, Option.map_some']
        simp only [List.lookup, hne]
        exact ih hnd2 hmem2

lemma fixedParams_keys_subset (limit : Int) (f : Filters) (useOffset : Int) :
    ∀ k ∈ (fixedParams limit f useOffset).map Prod.fst,
      k ∈ ["limit", "offset", "name", "disc_method", "include_deleted",
           "sort_by", "sort_order"] := by
  intro k hk
  simp only [fixedParams] at hk
  split_ifs at hk <;> simp_all <;> tauto

lemma numeric_key_not_in_fixedParams (limit : Int) (f : Filters)
    (useOffset : Int) (key : String)
    (h : key ∈ numericFilterEntries.map Prod.fst) :
    key ∉ (fixedParams limit f useOffset).map Prod.fst := by
  intro hmem
  have h7 := fixedParams_keys_subset limit f useOffset key hmem
  simp only [numericFilterEntries, List.map_cons, List.map_nil,
    List.mem_cons, List.not_mem_nil, or_false] at h
  rcases h with rfl | rfl | rfl | rfl | rfl | rfl | rfl | rfl | rfl | rfl |
    rfl | rfl | rfl | rfl <;> exact absurd h7 (by decide)

/-! ## The claims -/

/-- C3: for the offset-based contract (Builder B), whenever `limit > 0` the
displayed `currentPage` is `floor(offset/limit) + 1` and `totalPages` is
`ceil(total/limit)` (stated through their integer-division values); in
particular offset 40 with limit 20 gives page 3, and total 95 with limit 20
gives 5 pages. -/
theorem claim3_offset_derived_paging (offset limit : Int)
    (p : PlanetListResponseB) (hl : 0 < limit) :
    currentPageB offset limit = offset / limit + 1 ∧
    totalPagesB (some p) limit = (p.total + limit - 1) / limit ∧
    currentPageB 40 20 = 3 ∧
    totalPagesB (some ⟨20, 40, 95⟩) 20 = 5 := by
  refine ⟨?_, ?_, ?_, ?_⟩
  · rw [currentPageB, floor_intCast_div_intCast _ _ hl]
  · rw [totalPagesB, ceil_intCast_div_intCast _ _ hl]
  · rw [currentPageB, floor_intCast_div_intCast 40 20 (by norm_num)]
    decide
  · rw [totalPagesB, ceil_intCast_div_intCast 95 20 (by norm_num)]
    decide

/-- Witness for C3 at offset 40, limit 20, total 95. -/
theorem claim3_witness :
    currentPageB 40 20 = 3 ∧ totalPagesB (some ⟨20, 40, 95⟩) 20 = 5 :=
  ⟨(claim3_offset_derived_paging 40 20 ⟨20, 40, 95⟩ (by norm_num)).2.2.1,
   (claim3_offset_derived_paging 40 20 ⟨20, 40, 95⟩ (by norm_num)).2.2.2⟩

/-- C7: every response with a non-2xx status makes `get` raise a failure
carrying the status code, and every 2xx response returns the parsed JSON
body unchanged — no runtime schema validation, whatever the body. -/
theorem claim7_get_status_handling {α : Type} (resp : HttpResponse α) :
    (¬(200 ≤ resp.status ∧ resp.status ≤ 299) →
      getJson resp = .failure resp.status) ∧
    ((200 ≤ resp.status ∧ resp.status ≤ 299) →
      getJson resp = .success resp.body) := by
  refine ⟨fun h => ?_, fun h => ?_⟩ <;>
    simp [getJson, responseOk, h]

/-- Witness for C7: a 404 fails with status 404; a 200 returns the body. -/
theorem claim7_witness :
    getJson (⟨404, "payload"⟩ : HttpResponse String) = .failure 404 ∧
    getJson (⟨200, "payload"⟩ : HttpResponse String) = .success "payload" :=
  ⟨(claim7_get_status_handling ⟨404, "payload"⟩).1 (by decide),
   (claim7_get_status_handling ⟨200, "payload"⟩).2 (by decide)⟩

/-- C4: in Builder A's `usePlanetList`, changing any field of the filter
state resets the page to 1, and the request issued for the resulting state
carries the query parameter `page=1`. -/
theorem claim4_filter_change_resets_page (s : ListHookState) (k : FilterKey)
    (v : String) :
    (changeFilter s k v).page = 1 ∧
    List.lookup "page" (currentRequest (changeFilter s k v)) = some "1" := by
  refine ⟨rfl, ?_⟩
  simp [currentRequest, changeFilter, includedParams, mapFiltersToParams,
    keepParam, jsString, List.lookup, List.filter]
  decide

/-- C5 fails as stated in two ways.  First, Builder A also disables both
pagination buttons while a fetch is in flight
(`disabled={page <= 1 || loading}`): at the rendered response page 3 of 10
with `loading` true, Previous is disabled although the current page
exceeds 1.  Second, Builder B computes its conditions from the
client-tracked `offset`/`limit` state, not from the response's own
pagination fields (`prevDisabledB` cannot even read the response): while
the refetch issued by the page-size handler's `setOffset(0)` is in
flight, the previous response — whose own offset field is 25 — is still
the one rendered, yet Previous is disabled because the client offset is
0, so the claimed response-field iff fails at that rendered state. -/
theorem claim5_counterexample :
    (prevDisabledA (some ⟨3, 10, 47⟩) true = true ∧
      ¬(pageA (some ⟨3, 10, 47⟩) ≤ 1)) ∧
    (prevDisabledB 0 = true ∧
      ¬((⟨25, 25, 95⟩ : PlanetListResponseB).offset ≤ 0)) := by decide

/-- C5 (amended): with no fetch in flight, Builder A disables Previous iff
the response's page ≤ 1 and Next iff its page ≥ its pages, both read from
the response's own pagination fields; Builder B unconditionally disables
Previous iff the client-tracked offset ≤ 0 and, whenever a listing
response is present, Next iff the client-tracked offset + limit ≥ the
response's total — Builder B's conditions are computed from the
client-tracked offset and limit state, reading only `total` from the
response, as the final conjunct makes explicit (Next is unchanged by any
change to the response's own offset/limit fields).  While loading,
Builder A disables both buttons regardless of position. -/
theorem claim5_pagination_controls (r : PlanetListResponseA) (loading : Bool)
    (offset limit : Int) (p : PlanetListResponseB) :
    (loading = false →
      (prevDisabledA (some r) loading = true ↔ r.page ≤ 1) ∧
      (nextDisabledA (some r) loading = true ↔ r.page ≥ r.pages)) ∧
    (prevDisabledB offset = true ↔ offset ≤ 0) ∧
    (nextDisabledB offset limit (some p) = true ↔
      offset + limit ≥ p.total) ∧
    (∀ q : PlanetListResponseB, p.total = q.total →
      nextDisabledB offset limit (some p) =
        nextDisabledB offset limit (some q)) := by
  refine ⟨fun h => ⟨?_, ?_⟩, ?_, ?_, fun q hq => ?_⟩
  · simp [prevDisabledA, pageA, h]
  · simp [nextDisabledA, pageA, pagesA, h]
  · simp [prevDisabledB, canGoPrevB]
  · simp [nextDisabledB, canGoNextB]
  · simp [nextDisabledB, canGoNextB, hq]

/-- Witness for C5 (amended) at page 1 of 3, offset 0, limit 25, total 95;
the last conjunct varies the response's own offset/limit fields (25/0
versus 30/50) without changing Next. -/
theorem claim5_witness :
    (prevDisabledA (some ⟨1, 3, 47⟩) false = true ↔ (1 : Int) ≤ 1) ∧
    (nextDisabledA (some ⟨1, 3, 47⟩) false = true ↔ (1 : Int) ≥ 3) ∧
    (prevDisabledB 0 = true ↔ (0 : Int) ≤ 0) ∧
    (nextDisabledB 0 25 (some ⟨25, 0, 95⟩) = true ↔
      (0 : Int) + 25 ≥ 95) ∧
    nextDisabledB 0 25 (some ⟨25, 0, 95⟩) =
      nextDisabledB 0 25 (some ⟨30, 50, 95⟩) :=
  ⟨((claim5_pagination_controls ⟨1, 3, 47⟩ false 0 25 ⟨25, 0, 95⟩).1 rfl).1,
   ((claim5_pagination_controls ⟨1, 3, 47⟩ false 0 25 ⟨25, 0, 95⟩).1 rfl).2,
   (claim5_pagination_controls ⟨1, 3, 47⟩ false 0 25 ⟨25, 0, 95⟩).2.1,
   (claim5_pagination_controls ⟨1, 3, 47⟩ false 0 25 ⟨25, 0, 95⟩).2.2.1,
   (claim5_pagination_controls ⟨1, 3, 47⟩ false 0 25 ⟨25, 0, 95⟩).2.2.2
     ⟨30, 50, 95⟩ rfl⟩

/-- C6: the three concurrent fetches commit jointly — when all three
fulfil, the state stores all three results with loading cleared and no
error; when any single one rejects with a thrown `Error` while the other
two fulfil, the state records that error and discards every result
(planets null, method counts empty, stats null). -/
theorem claim6_joint_fetch (prev : FetchState)
    (pa : Outcome PlanetListResponseB) (mc : Outcome (List MethodCount))
    (st : Outcome PlanetStats) :
    (∀ p m s, pa = .success p → mc = .success m → st = .success s →
      fetchAll prev pa mc st = ⟨some p, m, some s, false, none⟩) ∧
    (∀ msg,
      ((pa = .failure msg ∧ (∃ m, mc = .success m) ∧
          (∃ s, st = .success s)) ∨
       ((∃ p, pa = .success p) ∧ mc = .failure msg ∧
          (∃ s, st = .success s)) ∨
       ((∃ p, pa = .success p) ∧ (∃ m, mc = .success m) ∧
          st = .failure msg)) →
      fetchAll prev pa mc st = ⟨none, [], none, false, some msg⟩) := by
  constructor
  · rintro p m s rfl rfl rfl
    rfl
  · rintro msg (⟨rfl, ⟨m, rfl⟩, ⟨s, rfl⟩⟩ | ⟨⟨p, rfl⟩, rfl, ⟨s, rfl⟩⟩ |
      ⟨⟨p, rfl⟩, ⟨m, rfl⟩, rfl⟩) <;> rfl

/-- Witness for C6: a fully successful batch commits jointly, and the
scenario where only method-counts fails with HTTP 500 discards the
successful listing and stats. -/
theorem claim6_witness :
    fetchAll ⟨none, [], none, false, none⟩ (.success ⟨25, 0, 10⟩)
      (.success [⟨"Transit", 7⟩]) (.success ⟨10⟩) =
      ⟨some ⟨25, 0, 10⟩, [⟨"Transit", 7⟩], some ⟨10⟩, false, none⟩ ∧
    fetchAll ⟨none, [], none, false, none⟩ (.success ⟨25, 0, 10⟩)
      (.failure (methodCountsFailureMsg 500)) (.success ⟨10⟩) =
      ⟨none, [], none, false, some (methodCountsFailureMsg 500)⟩ :=
  ⟨(claim6_joint_fetch _ _ _ _).1 _ _ _ rfl rfl rfl,
   (claim6_joint_fetch _ _ _ _).2 _
     (Or.inr (Or.inl ⟨⟨_, rfl⟩, rfl, ⟨_, rfl⟩⟩))⟩

/-- C8: whenever the rejection delivered for the batch is an `AbortError`,
`fetchAll` returns without writing an error — the state keeps the
`loading: true, error: null` write it started with, so cancellation is
never user-visible as an error. -/
theorem claim8_abort_suppressed (prev : FetchState)
    (pa : Outcome PlanetListResponseB) (mc : Outcome (List MethodCount))
    (st : Outcome PlanetStats)
    (h : promiseAll3 pa mc st = .error none) :
    fetchAll prev pa mc st = { prev with loading := true, error := none } ∧
    (fetchAll prev pa mc st).error = none := by
  refine ⟨?_, ?_⟩ <;> simp [fetchAll, h]

/-- Witness for C8: an aborted batch over a state that previously showed an
error leaves no error behind. -/
theorem claim8_witness :
    fetchAll ⟨none, [], none, false, some "boom"⟩ (.aborted) (.aborted)
      (.aborted) = ⟨none, [], none, true, none⟩ ∧
    (fetchAll ⟨none, [], none, false, some "boom"⟩ (.aborted) (.aborted)
      (.aborted)).error = none :=
  ⟨(claim8_abort_suppressed ⟨none, [], none, false, some "boom"⟩
      .aborted .aborted .aborted rfl).1,
   (claim8_abort_suppressed ⟨none, [], none, false, some "boom"⟩
      .aborted .aborted .aborted rfl).2⟩

/-- C10 fails as stated for Builder B's discovery-year column: that cell is
rendered raw (`{planet.disc_year}`), so a record whose discovery year is
null renders as empty text, not as the placeholder `"-"`. -/
theorem claim10_counterexample :
    (renderRowB ⟨7, "Kepler-442b", "Transit", none, none, none, none, none,
      none, none⟩)[3]? = some "" ∧ ("" : String) ≠ "-" := by decide

/-- C10 (amended): a null numeric measurement field renders as the
placeholder — `"—"` in Builder A for all four measurement columns, `"-"`
in Builder B for the six columns that go through `formatNumber` — except
Builder B's discovery-year cell, which is rendered raw and shows a null as
empty text; no null field ever renders as `"0"` or `"NaN"`. -/
theorem claim10_null_placeholders (pa : PlanetA) (pb : PlanetB) :
    (pa.discovery_year = none → (renderRowA pa)[2]? = some "—") ∧
    (pa.orbital_period = none → (renderRowA pa)[3]? = some "—") ∧
    (pa.radius = none → (renderRowA pa)[4]? = some "—") ∧
    (pa.mass = none → (renderRowA pa)[5]? = some "—") ∧
    (pb.orbperd = none → (renderRowB pb)[4]? = some "-") ∧
    (pb.rade = none → (renderRowB pb)[5]? = some "-") ∧
    (pb.masse = none → (renderRowB pb)[6]? = some "-") ∧
    (pb.st_teff = none → (renderRowB pb)[7]? = some "-") ∧
    (pb.st_rad = none → (renderRowB pb)[8]? = some "-") ∧
    (pb.st_mass = none → (renderRowB pb)[9]? = some "-") ∧
    (pb.disc_year = none → (renderRowB pb)[3]? = some "") ∧
    (("—" : String) ≠ "0" ∧ ("—" : String) ≠ "NaN" ∧
     ("-" : String) ≠ "0" ∧ ("-" : String) ≠ "NaN") := by
  refine ⟨fun h => ?_, fun h => ?_, fun h => ?_, fun h => ?_, fun h => ?_,
    fun h => ?_, fun h => ?_, fun h => ?_, fun h => ?_, fun h => ?_,
    fun h => ?_, by decide⟩ <;>
    simp [renderRowA, renderRowB, formatNumber, h]

/-- Witness for C10 (amended) on records whose numeric fields are all
null. -/
theorem claim10_witness :
    (renderRowA ⟨1, "HD 1", "RV", none, none, none, none⟩)[2]? = some "—" ∧
    (renderRowA ⟨1, "HD 1", "RV", none, none, none, none⟩)[3]? = some "—" ∧
    (renderRowB ⟨2, "HD 2", "RV", none, none, none, none, none, none,
      none⟩)[4]? = some "-" ∧
    (renderRowB ⟨2, "HD 2", "RV", none, none, none, none, none, none,
      none⟩)[3]? = some "" := by
  obtain h := claim10_null_placeholders
    ⟨1, "HD 1", "RV", none, none, none, none⟩
    ⟨2, "HD 2", "RV", none, none, none, none, none, none, none⟩
  exact ⟨h.1 rfl, h.2.1 rfl, h.2.2.2.2.1 rfl,
    h.2.2.2.2.2.2.2.2.2.2.1 rfl⟩

/-- Builder B `currentPage` is at least 1 whenever the offset is non-negative and the
limit positive. -/
lemma currentPageB_pos (offset limit : Int) (ho : 0 ≤ offset)
    (hl : 0 < limit) : 1 ≤ currentPageB offset limit := by
  rw [currentPageB, floor_intCast_div_intCast _ _ hl]
  have := Int.ediv_nonneg ho hl.le
  omega

/-- C9: every reachable Builder B pagination state keeps the limit in
`[1, 200]`, the offset non-negative, and therefore the derived page number
at least 1 — `goToPage` clamps the page, the page-size handler clamps the
limit, and submit, reset and filter edits preserve both bounds. -/
theorem claim9_paging_invariant (s : PagingState) (h : ReachablePaging s) :
    1 ≤ s.limit ∧ s.limit ≤ 200 ∧ 0 ≤ s.offset ∧
    1 ≤ currentPageB s.offset s.limit := by
  induction h with
  | init =>
    exact ⟨by decide, by decide, by decide,
      currentPageB_pos 0 25 (by decide) (by decide)⟩
  | @step s' e hs ih =>
    obtain ⟨h1, h2, h3, _⟩ := ih
    cases e with
    | goToPage p =>
      have hoff : 0 ≤ (max 1 p - 1) * s'.limit :=
        mul_nonneg (by omega) (by omega)
      exact ⟨h1, h2, hoff, currentPageB_pos _ _ hoff
        (show (0 : Int) < s'.limit by omega)⟩
    | setLimit raw =>
      have hl : 1 ≤ min 200 (max 1 (jsOrOne raw)) ∧
          min 200 (max 1 (jsOrOne raw)) ≤ 200 := by omega
      exact ⟨hl.1, hl.2, le_refl 0, currentPageB_pos _ _ (le_refl 0)
        (show (0 : Int) < min 200 (max 1 (jsOrOne raw)) by omega)⟩
    | submit =>
      exact ⟨h1, h2, le_refl 0, currentPageB_pos _ _ (le_refl 0)
        (show (0 : Int) < s'.limit by omega)⟩
    | reset =>
      exact ⟨by norm_num [pagingStep], by norm_num [pagingStep], le_refl 0,
        currentPageB_pos _ _ (le_refl 0) (by norm_num [pagingStep])⟩
    | filterChange =>
      exact ⟨h1, h2, h3, currentPageB_pos _ _ h3
        (show (0 : Int) < s'.limit by omega)⟩

/-- Witness for C9: the state after jumping to page 5 from the initial
state (limit 25, offset 100) satisfies the invariant. -/
theorem claim9_witness :
    1 ≤ (⟨25, 100⟩ : PagingState).limit ∧
    (⟨25, 100⟩ : PagingState).limit ≤ 200 ∧
    0 ≤ (⟨25, 100⟩ : PagingState).offset ∧
    1 ≤ currentPageB (⟨25, 100⟩ : PagingState).offset
      (⟨25, 100⟩ : PagingState).limit :=
  claim9_paging_invariant _
    (ReachablePaging.step (.goToPage 5) ReachablePaging.init)

/-- C1: `buildUrl` includes exactly the parameters whose value is neither
undefined nor the empty string, and when every Builder A filter field is
blank the issued query contains only the pagination and sort parameters
`limit`, `page`, `order_by`, `order_dir`. -/
theorem claim1_param_omission (params : List (String × JsVal)) (k : String)
    (f : PlanetFilterState) (page : Int)
    (hs : f.search = "") (hm : f.method = "")
    (hmin : f.minYear = "") (hmax : f.maxYear = "")
    (hob : f.orderBy ≠ "") (hod : f.orderDir ≠ "") :
    ((k ∈ (includedParams params).map Prod.fst) ↔
      ∃ v, (k, v) ∈ params ∧ v ≠ JsVal.undef ∧ v ≠ JsVal.str "") ∧
    (includedParams (mapFiltersToParams f page)).map Prod.fst =
      ["limit", "page", "order_by", "order_dir"] := by
  constructor
  · have hkeys : (includedParams params).map Prod.fst =
        (params.filter (fun kv => keepParam kv.2)).map Prod.fst := by
      simp [includedParams, List.map_map, Function.comp]
    rw [hkeys, List.mem_map]
    constructor
    · rintro ⟨⟨k1, v⟩, hmem, rfl⟩
      rw [List.mem_filter] at hmem
      have hv := hmem.2
      simp only [keepParam, Bool.and_eq_true, Bool.not_eq_true',
        beq_eq_false_iff_ne, ne_eq] at hv
      exact ⟨v, hmem.1, hv.1, hv.2⟩
    · rintro ⟨v, hmem, hv1, hv2⟩
      refine ⟨(k, v), List.mem_filter.mpr ⟨hmem, ?_⟩, rfl⟩
      simp [keepParam, hv1, hv2]
  · simp [includedParams, mapFiltersToParams, keepParam, hs, hm, hmin, hmax,
      hob, hod]

/-- Witness for C1 on a three-entry parameter list (one kept, one
undefined, one empty) and the default filter state at page 1. -/
theorem claim1_witness :
    (("a" ∈ (includedParams [("a", JsVal.str "x"), ("b", JsVal.undef),
        ("c", JsVal.str "")]).map Prod.fst) ↔
      ∃ v, ("a", v) ∈ [("a", JsVal.str "x"), ("b", JsVal.undef),
        ("c", JsVal.str "")] ∧ v ≠ JsVal.undef ∧ v ≠ JsVal.str "") ∧
    (includedParams (mapFiltersToParams defaultFilterState 1)).map Prod.fst =
      ["limit", "page", "order_by", "order_dir"] :=
  claim1_param_omission
    [("a", JsVal.str "x"), ("b", JsVal.undef), ("c", JsVal.str "")] "a"
    defaultFilterState 1 rfl rfl rfl rfl (by decide) (by decide)

/-- C2: for each of the fourteen `min_*`/`max_*` numeric filters, the wire
parameter emitted by `buildParams` is exactly the decimal rendering of the
parsed value when the field parses as a finite number, and is omitted
entirely — never `NaN` or `undefined` — when it does not (in particular
every blank or whitespace-only field is omitted). -/
theorem claim2_numeric_filter_params (f : Filters) (limit useOffset : Int)
    (key : String) (getter : Filters → String)
    (hmem : (key, getter) ∈ numericFilterEntries) :
    List.lookup key (buildParams limit f useOffset) =
      (numericOrUndefined (getter f)).map jsNumberToString ∧
    (numericOrUndefined (getter f) = none →
      List.lookup key (buildParams limit f useOffset) = none) ∧
    (∀ s, jsTrimList s = [] → numericOrUndefined s = none) := by
  have hkey : key ∈ numericFilterEntries.map Prod.fst :=
    List.mem_map_of_mem Prod.fst hmem
  have hnd : (numericFilterEntries.map Prod.fst).Nodup := by
    simp only [numericFilterEntries, List.map_cons, List.map_nil]
    decide
  have hstep : List.lookup key (buildParams limit f useOffset) =
      (numericOrUndefined (getter f)).map jsNumberToString := by
    rw [buildParams, lookup_append_left_none
      (numeric_key_not_in_fixedParams limit f useOffset key hkey)]
    exact lookup_numericParams_aux f numericFilterEntries key getter hnd hmem
  refine ⟨hstep, fun h => ?_, fun s hs => ?_⟩
  · rw [hstep, h]
    rfl
  · simp [numericOrUndefined, hs]

/-- Witness for C2: with `min_rade` set to `"1.5"` and `max_rade` to
`"oops"`, the request carries `min_rade=1.5` and no `max_rade`. -/
theorem claim2_witness :
    (numericOrUndefined "oops" = none ∧
      numericOrUndefined "1.5" = some ⟨15, 1⟩) ∧
    List.lookup "min_rade" (buildParams 25 exampleFiltersB 50) =
      (numericOrUndefined exampleFiltersB.min_rade).map jsNumberToString ∧
    List.lookup "max_rade" (buildParams 25 exampleFiltersB 50) = none :=
  ⟨⟨by decide, by decide⟩,
   (claim2_numeric_filter_params exampleFiltersB 25 50 "min_rade"
      Filters.min_rade
      (List.Mem.tail _ (List.Mem.tail _ (List.Mem.tail _
        (List.Mem.tail _ (List.Mem.head _)))))).1,
   (claim2_numeric_filter_params exampleFiltersB 25 50 "max_rade"
      Filters.max_rade
      (List.Mem.tail _ (List.Mem.tail _ (List.Mem.tail _ (List.Mem.tail _
        (List.Mem.tail _ (List.Mem.head _))))))).2.1 (by decide)⟩
